import Mathlib

/-!
Shallow embedding of `src/device_impl.cpp` (namespace `dronelink`,
class `DeviceImpl`): the per-endpoint command/acknowledgement state
machine, the timeout-handler registry, the heartbeat monitor and the
identity (system id / component id / uuid) capture logic.

Modelling conventions:
  * machine integers (`uint8_t`, `uint16_t`, `uint64_t`) are `Nat`;
    none of the verified properties depend on wraparound;
  * times (`dl_time_t`, `elapsed_s`, `steady_time`) are `Nat` seconds,
    passed explicitly as `now`; `steady_time_in_future(s)` is `now + s`;
  * callbacks are opaque tokens (`Nat`); a `nullptr` callback is `none`;
    invoking a callback is recorded as an `Event.callbackInvoked`;
  * calls out to the parent (`send_message`, `notify_on_discover`,
    `notify_on_timeout`) and the `Debug()` anomaly log are recorded as
    events; the boolean outcome of `_parent->send_message` is supplied
    as an explicit `sendOk` argument;
  * the blocking poll loop of `send_command_with_ack` is modelled by an
    `ack : Option Nat` argument: `some r` means a COMMAND_ACK with
    result code `r` is dispatched (by `process_command_ack`) while the
    caller polls within its budget, `none` means no ack arrives in time;
  * `std::map<const void*, TimeoutHandlerMapEntry>` is an association
    list keyed by `Nat` cookies; `std::map::insert` does not overwrite
    an existing key, which the embedding reproduces; iteration order of
    the source map is pointer order, which is arbitrary, so the list
    order stands in for it; `check_timeouts` additionally exposes the
    cookie of the erased node so that properties can name it.
-/

namespace DroneLink

/-- MAV_RESULT_ACCEPTED of the MAVLink MAV_RESULT enum. -/
def MAV_RESULT_ACCEPTED : Nat := 0

/-- MAV_RESULT_FAILED, the initial value of `_command_result`. -/
def MAV_RESULT_FAILED : Nat := 4

/-- MAV_PROTOCOL_CAPABILITY_MISSION_INT capability bit. -/
def MAV_PROTOCOL_CAPABILITY_MISSION_INT : Nat := 4

/-- MAV_CMD_REQUEST_AUTOPILOT_CAPABILITIES command id. -/
def MAV_CMD_REQUEST_AUTOPILOT_CAPABILITIES : Nat := 520

/-- MAV_CMD_SET_MESSAGE_INTERVAL command id. -/
def MAV_CMD_SET_MESSAGE_INTERVAL : Nat := 511

/-- `DeviceImpl::CommandState` (NONE / WAITING / RECEIVED). -/
inductive CommandState where
  | NONE
  | WAITING
  | RECEIVED
deriving DecidableEq, Repr

/-- `DeviceImpl::CommandResult`. -/
inductive CommandResult where
  | SUCCESS
  | NO_DEVICE
  | CONNECTION_ERROR
  | BUSY
  | COMMAND_DENIED
  | TIMEOUT
deriving DecidableEq, Repr

/-- Observable effects: outbound sends, parent notifications, the
`Debug()` uuid-conflict log line, and command-result callback calls. -/
inductive Event where
  | sent (command : Nat)
  | discover (uuid : Nat)
  | timeoutNotify (uuid : Nat)
  | anomaly
  | callbackInvoked (cb : Nat) (result : CommandResult)
deriving DecidableEq, Repr

/-- `TimeoutHandlerMapEntry`: absolute deadline plus callback token. -/
structure TimeoutHandlerMapEntry where
  time : Nat
  callback : Nat
deriving DecidableEq, Repr

/-- `_timeout_handler_map`: cookie-keyed association list. -/
abbrev TimeoutHandlerMap := List (Nat × TimeoutHandlerMapEntry)

/-- The fields of `DeviceImpl` that the verified behaviour reads or
writes. `_parent`, the raw thread handle and the mutexes are modelled
by events, the `device_thread_started` flag, and atomic steps. -/
structure Device where
  target_system_id : Nat
  target_component_id : Nat
  target_uuid : Nat
  target_supports_mission_int : Bool
  command_result : Nat
  command_state : CommandState
  command_result_callback : Option Nat
  device_thread_started : Bool
  timeout_s : Nat
  last_heartbeat_received_time : Nat
  heartbeat_timeout_s : Nat
  heartbeat_timed_out : Bool
deriving DecidableEq, Repr

/-- `DeviceImpl::report_result`: skips a null callback, otherwise
invokes it with the result. -/
def report_result (callback : Option Nat) (result : CommandResult) : List Event :=
  match callback with
  | none => []
  | some cb => [Event.callbackInvoked cb result]

/-- `DeviceImpl::send_command`. Fails with NO_DEVICE while both target
ids are zero; otherwise packs and sends one COMMAND_LONG, returning
CONNECTION_ERROR when the parent send fails and SUCCESS otherwise.
Mutates no device field. -/
def send_command (d : Device) (sendOk : Bool) (command : Nat) :
    CommandResult × Device × List Event :=
  if d.target_system_id = 0 ∧ d.target_component_id = 0 then
    (CommandResult.NO_DEVICE, d, [])
  else
    if sendOk then
      (CommandResult.SUCCESS, d, [Event.sent command])
    else
      (CommandResult.CONNECTION_ERROR, d, [Event.sent command])

/-- `DeviceImpl::process_command_ack`. Ignored unless WAITING; captures
the result code then publishes RECEIVED. Faithful to the source, BOTH
branches of the accepted/not-accepted `if` report SUCCESS to a pending
callback; the callback is then cleared. -/
def process_command_ack (d : Device) (result : Nat) : Device × List Event :=
  if d.command_state = CommandState.WAITING then
    let events :=
      if result = MAV_RESULT_ACCEPTED then
        report_result d.command_result_callback CommandResult.SUCCESS
      else
        report_result d.command_result_callback CommandResult.SUCCESS
    ({ d with
        command_result := result
        command_state := CommandState.RECEIVED
        command_result_callback := none }, events)
  else
    (d, [])

/-- `DeviceImpl::process_autopilot_version`. Sets the uuid and the
mission-int capability from the first report while `_target_uuid` is 0
and notifies discovery; a conflicting uuid afterwards only logs the
anomaly. -/
def process_autopilot_version (d : Device) (uid capabilities : Nat) :
    Device × List Event :=
  if d.target_uuid = 0 then
    ({ d with
        target_uuid := uid
        target_supports_mission_int :=
          (capabilities &&& MAV_PROTOCOL_CAPABILITY_MISSION_INT) != 0 },
     [Event.discover uid])
  else
    if d.target_uuid ≠ uid then
      (d, [Event.anomaly])
    else
      (d, [])

/-- `DeviceImpl::process_heartbeat`. Captures both target ids from the
sender while `_target_system_id` is 0, requests the autopilot version
while the uuid is unknown (a `send_command`, detectable only by its
events), starts the device thread, then records the receive time and
clears the timed-out latch. -/
def process_heartbeat (d : Device) (now sysid compid : Nat) (sendOk : Bool) :
    Device × List Event :=
  let d1 :=
    if d.target_system_id = 0 then
      { d with target_system_id := sysid, target_component_id := compid }
    else d
  let reqEvents :=
    if d1.target_uuid = 0 then
      (send_command d1 sendOk MAV_CMD_REQUEST_AUTOPILOT_CAPABILITIES).2.2
    else []
  ({ d1 with
      device_thread_started := true
      last_heartbeat_received_time := now
      heartbeat_timed_out := false }, reqEvents)

/-- `DeviceImpl::check_heartbeat_timeout`. Raises `notify_on_timeout`
once per loss episode, latched by `_heartbeat_timed_out`. -/
def check_heartbeat_timeout (d : Device) (now : Nat) : Device × List Event :=
  if now - d.last_heartbeat_received_time > d.heartbeat_timeout_s then
    if !d.heartbeat_timed_out then
      ({ d with heartbeat_timed_out := true },
       [Event.timeoutNotify d.target_uuid])
    else
      (d, [])
  else
    (d, [])

/-- `DeviceImpl::register_timeout_handler`. Computes
`deadline = now + _timeout_s` and does `map.insert`, which in C++ is a
no-op when the cookie is already present. -/
def register_timeout_handler (m : TimeoutHandlerMap)
    (callback cookie now timeout_s : Nat) : TimeoutHandlerMap :=
  if (m.lookup cookie).isSome then m
  else m ++ [(cookie, ⟨now + timeout_s, callback⟩)]

/-- `DeviceImpl::update_timeout_handler`. `map.find(cookie)` locates
the single entry with that key (the map holds at most one) and sets its
`time` to `now + _timeout_s`; the callback is untouched; an absent
cookie is a no-op. -/
def update_timeout_handler : TimeoutHandlerMap → Nat → Nat → Nat →
    TimeoutHandlerMap
  | [], _, _, _ => []
  | (k, e) :: rest, cookie, now, dt =>
    if k = cookie then (k, ⟨now + dt, e.callback⟩) :: rest
    else (k, e) :: update_timeout_handler rest cookie now dt

/-- `DeviceImpl::unregister_timeout_handler`. `map.erase(cookie)`
removes the single entry with that key when present. -/
def unregister_timeout_handler : TimeoutHandlerMap → Nat → TimeoutHandlerMap
  | [], _ => []
  | (k, e) :: rest, cookie =>
    if k = cookie then rest
    else (k, e) :: unregister_timeout_handler rest cookie

/-- `DeviceImpl::check_timeouts`. Scans the map under the lock, erases
the FIRST entry whose deadline has passed and hands back its callback
(here: cookie and entry) to be invoked after the lock is released; at
most one entry fires per call. -/
def check_timeouts : TimeoutHandlerMap → Nat →
    Option (Nat × TimeoutHandlerMapEntry) × TimeoutHandlerMap
  | [], _ => (none, [])
  | (k, e) :: rest, now =>
    if e.time < now then
      (some (k, e), rest)
    else
      let r := check_timeouts rest now
      (r.1, (k, e) :: r.2)

/-- `DeviceImpl::send_command_with_ack`. Busy while WAITING; otherwise
clears the pending callback, publishes WAITING, sends, and — faithful
to the source — returns a failed send's result WITHOUT resetting
`_command_state`. On success it polls for RECEIVED (the `ack` argument
stands for an ack dispatched within the budget), then resets to NONE
and maps the captured result code to SUCCESS / COMMAND_DENIED, or
resets to NONE and returns TIMEOUT when no ack arrived. -/
def send_command_with_ack (d : Device) (sendOk : Bool) (ack : Option Nat)
    (command : Nat) : CommandResult × Device × List Event :=
  if d.command_state = CommandState.WAITING then
    (CommandResult.BUSY, d, [])
  else
    let d1 := { d with
        command_result_callback := none
        command_state := CommandState.WAITING }
    let s := send_command d1 sendOk command
    if s.1 ≠ CommandResult.SUCCESS then
      (s.1, s.2.1, s.2.2)
    else
      let a := match ack with
        | some r => process_command_ack s.2.1 r
        | none => (s.2.1, [])
      if a.1.command_state ≠ CommandState.RECEIVED then
        (CommandResult.TIMEOUT, { a.1 with command_state := CommandState.NONE },
         s.2.2 ++ a.2)
      else
        let d4 := { a.1 with command_state := CommandState.NONE }
        if d4.command_result ≠ MAV_RESULT_ACCEPTED then
          (CommandResult.COMMAND_DENIED, d4, s.2.2 ++ a.2)
        else
          (CommandResult.SUCCESS, d4, s.2.2 ++ a.2)

/-- `DeviceImpl::send_command_with_ack_async`. Faithful to the source:
the busy branch reports BUSY to the new callback but does NOT return,
so the command is still sent; a failed send reports the failure and
resets the state to NONE; a successful send publishes WAITING and
stores the new callback as the pending completion. -/
def send_command_with_ack_async (d : Device) (sendOk : Bool) (command : Nat)
    (callback : Option Nat) : Device × List Event :=
  let busyEvents :=
    if d.command_state = CommandState.WAITING then
      report_result callback CommandResult.BUSY
    else []
  let s := send_command d sendOk command
  if s.1 ≠ CommandResult.SUCCESS then
    ({ s.2.1 with command_state := CommandState.NONE },
     busyEvents ++ s.2.2 ++ report_result callback s.1)
  else
    ({ s.2.1 with
        command_state := CommandState.WAITING
        command_result_callback := callback },
     busyEvents ++ s.2.2)

/-- `DeviceImpl::set_msg_rate` issues SET_MESSAGE_INTERVAL through
`send_command_with_ack` (the interval-microseconds parameter is a
float and is not modelled; only the command id and the state machine
path are). -/
def set_msg_rate (d : Device) (sendOk : Bool) (ack : Option Nat) :
    CommandResult × Device × List Event :=
  send_command_with_ack d sendOk ack MAV_CMD_SET_MESSAGE_INTERVAL

/-- Fold `check_heartbeat_timeout` over a list of check instants, the
periodic checks the device thread performs during a heartbeat gap. -/
def run_checks : Device → List Nat → Device × List Event
  | d, [] => (d, [])
  | d, t :: ts =>
    let c := check_heartbeat_timeout d t
    let r := run_checks c.1 ts
    (r.1, c.2 ++ r.2)

/-- Fold `process_heartbeat` over inbound heartbeats, each a
(receive time, sender system id, sender component id) triple. -/
def run_heartbeats : Device → List (Nat × Nat × Nat) → Device
  | d, [] => d
  | d, (t, s, c) :: ms => run_heartbeats (process_heartbeat d t s c true).1 ms

/-- Fold `process_autopilot_version` over capability reports, each a
(uid, capabilities) pair, collecting the emitted events. -/
def run_reports : Device → List (Nat × Nat) → Device × List Event
  | d, [] => (d, [])
  | d, (u, c) :: rs =>
    let p := process_autopilot_version d u c
    let r := run_reports p.1 rs
    (r.1, p.2 ++ r.2)

/-- Recognise a liveness-loss notification among events. -/
def isTimeoutNotify : Event → Bool
  | Event.timeoutNotify _ => true
  | _ => false

/-- Recognise a command-result callback invocation among events. -/
def isCallbackInvoked : Event → Bool
  | Event.callbackInvoked _ _ => true
  | _ => false

/-- Number of liveness-loss notifications in an event list. -/
def countNotify (evs : List Event) : Nat := (evs.filter isTimeoutNotify).length

/-- The registry invariant the C++ `std::map` provides for free: at
most one entry per cookie. -/
def uniqueKeys (m : TimeoutHandlerMap) : Prop := (m.map Prod.fst).Nodup

instance (m : TimeoutHandlerMap) : Decidable (uniqueKeys m) := by
  unfold uniqueKeys; infer_instance

/-- A freshly constructed `DeviceImpl` (constructor at
device_impl.cpp:11): ids unset, FAILED last result, NONE state, no
pending callback, default timeouts (the concrete durations are
configuration; 1 and 3 stand in for them). -/
def freshDevice : Device where
  target_system_id := 0
  target_component_id := 0
  target_uuid := 0
  target_supports_mission_int := false
  command_result := MAV_RESULT_FAILED
  command_state := CommandState.NONE
  command_result_callback := none
  device_thread_started := false
  timeout_s := 1
  last_heartbeat_received_time := 0
  heartbeat_timeout_s := 3
  heartbeat_timed_out := false

/-- A device whose identity is already established, i.e. after a first
heartbeat from (sysid 1, compid 1) and a capability report. -/
def knownDevice : Device :=
  { freshDevice with
      target_system_id := 1
      target_component_id := 1
      target_uuid := 42 }

/-- C1. The claim says every `send_command_with_ack` call that passes
the busy check leaves the command state Idle (NONE) on return, for all
of Success, CommandDenied, Timeout, NoDevice and ConnectionError. The
code falsifies it: when the inner `send_command` fails, the early
return at device_impl.cpp:319-321 skips the reset, so a NO_DEVICE
return (fresh device, ids unset) and a CONNECTION_ERROR return (send
capability fails) both leave the state WAITING, and every subsequent
call is then refused as BUSY. -/
theorem C1_send_failure_leaves_state_waiting :
    (send_command_with_ack freshDevice false none 17).1 = CommandResult.NO_DEVICE ∧
    (send_command_with_ack freshDevice false none 17).2.1.command_state =
      CommandState.WAITING ∧
    (send_command_with_ack
        (send_command_with_ack freshDevice false none 17).2.1
        true (some 0) 17).1 = CommandResult.BUSY ∧
    (send_command_with_ack knownDevice false none 17).1 =
      CommandResult.CONNECTION_ERROR ∧
    (send_command_with_ack knownDevice false none 17).2.1.command_state =
      CommandState.WAITING := by
  decide

/-- C2. An ack with a non-accepted result code (4 = FAILED) delivered
while WAITING with a pending async callback: the blocking consumer does
map it to COMMAND_DENIED, but process_command_ack invokes the pending
callback with SUCCESS — both branches of the if at
device_impl.cpp:148-156 call report_result with SUCCESS — where the
claim requires a failure outcome for the async caller. -/
theorem C2_nonaccepted_ack_reports_success_to_callback :
    (4 : Nat) ≠ MAV_RESULT_ACCEPTED ∧
    (process_command_ack
        { knownDevice with
            command_state := CommandState.WAITING
            command_result_callback := some 7 } 4).2 =
      [Event.callbackInvoked 7 CommandResult.SUCCESS] ∧
    (send_command_with_ack knownDevice true (some 4) 17).1 =
      CommandResult.COMMAND_DENIED ∧
    (send_command_with_ack knownDevice true (some 0) 17).1 =
      CommandResult.SUCCESS := by
  decide

/-- C3. The blocking variant honours the busy check (returns BUSY,
sends nothing, changes nothing), but the async variant called while
WAITING reports BUSY to the new callback and then — the missing return
at device_impl.cpp:354-356 — still sends the command and overwrites
the pending callback (some 9 becomes some 3), falsifying the claim for
the async variant. -/
theorem C3_async_busy_path_still_sends :
    (send_command_with_ack
        { knownDevice with
            command_state := CommandState.WAITING
            command_result_callback := some 9 } true (some 0) 5) =
      (CommandResult.BUSY,
       { knownDevice with
           command_state := CommandState.WAITING
           command_result_callback := some 9 }, []) ∧
    (send_command_with_ack_async
        { knownDevice with
            command_state := CommandState.WAITING
            command_result_callback := some 9 } true 5 (some 3)).2 =
      [Event.callbackInvoked 3 CommandResult.BUSY, Event.sent 5] ∧
    (send_command_with_ack_async
        { knownDevice with
            command_state := CommandState.WAITING
            command_result_callback := some 9 } true 5 (some 3)).1.command_result_callback =
      some 3 := by
  decide

theorem lookup_eq_none_iff (m : TimeoutHandlerMap) (k : Nat) :
    m.lookup k = none ↔ k ∉ m.map Prod.fst := by
  induction m with
  | nil => simp [List.lookup]
  | cons p rest ih =>
    obtain ⟨k1, v⟩ := p
    by_cases h : k = k1
    · subst h
      simp [List.lookup]
    · have hb : (k == k1) = false := beq_eq_false_iff_ne.2 h
      simp [List.lookup, hb, h, ih]

theorem update_lookup_self (m : TimeoutHandlerMap) (c now dt : Nat)
    (e : TimeoutHandlerMapEntry) (he : m.lookup c = some e) :
    (update_timeout_handler m c now dt).lookup c = some ⟨now + dt, e.callback⟩ := by
  induction m with
  | nil => simp [List.lookup] at he
  | cons p rest ih =>
    obtain ⟨k1, v⟩ := p
    by_cases h : c = k1
    · subst h
      simp [List.lookup] at he
      simp [update_timeout_handler, List.lookup, he]
    · have hb : (c == k1) = false := beq_eq_false_iff_ne.2 h
      simp only [List.lookup, hb] at he
      have hr := ih he
      simp only [update_timeout_handler]
      rw [if_neg (fun hh : k1 = c => h hh.symm)]
      simp only [List.lookup, hb]
      exact hr

theorem update_lookup_other (m : TimeoutHandlerMap) (c c2 now dt : Nat)
    (h : c2 ≠ c) :
    (update_timeout_handler m c now dt).lookup c2 = m.lookup c2 := by
  induction m with
  | nil => simp [update_timeout_handler]
  | cons p rest ih =>
    obtain ⟨k1, v⟩ := p
    by_cases hk : k1 = c
    · subst hk
      have hb : (c2 == k1) = false := beq_eq_false_iff_ne.2 h
      simp [update_timeout_handler, List.lookup, hb]
    · by_cases h2 : c2 = k1
      · subst h2
        simp [update_timeout_handler, hk, List.lookup]
      · have hb : (c2 == k1) = false := beq_eq_false_iff_ne.2 h2
        simp [update_timeout_handler, hk, List.lookup, hb, ih]

theorem update_keys (m : TimeoutHandlerMap) (c now dt : Nat) :
    (update_timeout_handler m c now dt).map Prod.fst = m.map Prod.fst := by
  induction m with
  | nil => rfl
  | cons p rest ih =>
    obtain ⟨k1, v⟩ := p
    by_cases h : k1 = c
    · simp [update_timeout_handler, h]
    · simp [update_timeout_handler, h, ih]

theorem update_length (m : TimeoutHandlerMap) (c now dt : Nat) :
    (update_timeout_handler m c now dt).length = m.length := by
  induction m with
  | nil => rfl
  | cons p rest ih =>
    obtain ⟨k1, v⟩ := p
    by_cases h : k1 = c
    · simp [update_timeout_handler, h]
    · simp [update_timeout_handler, h, ih]

/-- C4 counterexample. The claim says `register_timeout_handler` for an
owner that already has a pending entry replaces that entry's deadline.
On the concrete registry holding cookie 1 with deadline 100, scheduling
cookie 1 again at now 200 with timeout 10 leaves deadline 100 in place
instead of storing 210 = 200 + 10: `std::map::insert` at
device_impl.cpp:85 never overwrites an existing key. -/
theorem C4_schedule_does_not_replace_deadline :
    (register_timeout_handler [(1, ⟨100, 5⟩)] 7 1 200 10).lookup 1 =
      some ⟨100, 5⟩ ∧
    (register_timeout_handler [(1, ⟨100, 5⟩)] 7 1 200 10).lookup 1 ≠
      some ⟨210, 7⟩ := by
  decide

/-- C4 amended. For an owner that already has a pending entry,
`register_timeout_handler` leaves the registry entirely unchanged (old
deadline and old callback stay; the map insert is a no-op), while
`update_timeout_handler` recomputes the deadline as now + timeout
without changing the stored callback, without touching other owners'
entries, and without creating a duplicate entry. -/
theorem C4_registry_single_entry_per_owner (m : TimeoutHandlerMap)
    (cb c now dt : Nat) (e : TimeoutHandlerMapEntry)
    (he : m.lookup c = some e) :
    register_timeout_handler m cb c now dt = m ∧
    (update_timeout_handler m c now dt).lookup c = some ⟨now + dt, e.callback⟩ ∧
    (∀ c2, c2 ≠ c → (update_timeout_handler m c now dt).lookup c2 = m.lookup c2) ∧
    (update_timeout_handler m c now dt).length = m.length ∧
    (uniqueKeys m → uniqueKeys (update_timeout_handler m c now dt)) := by
  refine ⟨?_, update_lookup_self m c now dt e he,
          fun c2 h2 => update_lookup_other m c c2 now dt h2,
          update_length m c now dt, ?_⟩
  · simp [register_timeout_handler, he]
  · intro hu
    unfold uniqueKeys
    rw [update_keys]
    exact hu

/-- C4 witness: the amended theorem applied to a two-entry registry. -/
theorem C4_registry_single_entry_per_owner_witness :
    ([(1, ⟨100, 5⟩), (2, ⟨150, 6⟩)] : TimeoutHandlerMap).lookup 1 =
      some ⟨100, 5⟩ ∧
    (register_timeout_handler [(1, ⟨100, 5⟩), (2, ⟨150, 6⟩)] 7 1 200 10 =
        [(1, ⟨100, 5⟩), (2, ⟨150, 6⟩)] ∧
      (update_timeout_handler [(1, ⟨100, 5⟩), (2, ⟨150, 6⟩)] 1 200 10).lookup 1 =
        some ⟨210, 5⟩ ∧
      (∀ c2, c2 ≠ 1 →
        (update_timeout_handler [(1, ⟨100, 5⟩), (2, ⟨150, 6⟩)] 1 200 10).lookup c2 =
          ([(1, ⟨100, 5⟩), (2, ⟨150, 6⟩)] : TimeoutHandlerMap).lookup c2) ∧
      (update_timeout_handler [(1, ⟨100, 5⟩), (2, ⟨150, 6⟩)] 1 200 10).length =
        ([(1, ⟨100, 5⟩), (2, ⟨150, 6⟩)] : TimeoutHandlerMap).length ∧
      (uniqueKeys [(1, ⟨100, 5⟩), (2, ⟨150, 6⟩)] →
        uniqueKeys (update_timeout_handler [(1, ⟨100, 5⟩), (2, ⟨150, 6⟩)] 1 200 10))) :=
  ⟨by decide,
   C4_registry_single_entry_per_owner [(1, ⟨100, 5⟩), (2, ⟨150, 6⟩)] 7 1 200 10
     ⟨100, 5⟩ (by decide)⟩

theorem lookup_of_mem_unique (m : TimeoutHandlerMap) (k : Nat)
    (e : TimeoutHandlerMapEntry) (hm : uniqueKeys m) (hmem : (k, e) ∈ m) :
    m.lookup k = some e := by
  induction m with
  | nil => simp at hmem
  | cons p rest ih =>
    obtain ⟨k1, v⟩ := p
    obtain ⟨hk1, hnd⟩ := List.nodup_cons.mp hm
    rcases List.mem_cons.mp hmem with hhead | htail
    · obtain ⟨hk, hv⟩ := Prod.mk.injEq .. ▸ hhead
      subst hk
      simp [List.lookup, hv]
    · have hk : k ≠ k1 := by
        intro hkk
        subst hkk
        exact hk1 (List.mem_map.mpr ⟨(k, e), htail, rfl⟩)
      have hb : (k == k1) = false := beq_eq_false_iff_ne.2 hk
      simp only [List.lookup, hb]
      exact ih hnd htail

theorem check_timeouts_none (m : TimeoutHandlerMap) (now : Nat)
    (hf : (check_timeouts m now).1 = none) :
    (check_timeouts m now).2 = m := by
  induction m with
  | nil => rfl
  | cons p rest ih =>
    obtain ⟨k1, v⟩ := p
    by_cases h : v.time < now
    · simp [check_timeouts, h] at hf
    · simp only [check_timeouts, if_neg h] at hf ⊢
      rw [ih hf]

theorem check_timeouts_mem (m : TimeoutHandlerMap) (now k : Nat)
    (e : TimeoutHandlerMapEntry)
    (hf : (check_timeouts m now).1 = some (k, e)) :
    (k, e) ∈ m ∧ e.time < now := by
  induction m with
  | nil => simp [check_timeouts] at hf
  | cons p rest ih =>
    obtain ⟨k1, v⟩ := p
    by_cases h : v.time < now
    · simp only [check_timeouts, if_pos h, Option.some.injEq] at hf
      obtain ⟨hk, hv⟩ := Prod.mk.injEq .. ▸ hf.symm
      subst hk
      subst hv
      exact ⟨List.mem_cons_self .., h⟩
    · simp only [check_timeouts, if_neg h] at hf
      obtain ⟨hmem, ht⟩ := ih hf
      exact ⟨List.mem_cons_of_mem _ hmem, ht⟩

theorem check_timeouts_some (m : TimeoutHandlerMap) (now k : Nat)
    (e : TimeoutHandlerMapEntry) (hm : uniqueKeys m)
    (hf : (check_timeouts m now).1 = some (k, e)) :
    e.time < now ∧ m.lookup k = some e ∧
    (check_timeouts m now).2.length + 1 = m.length ∧
    (check_timeouts m now).2.lookup k = none ∧
    ∀ k2, k2 ≠ k → (check_timeouts m now).2.lookup k2 = m.lookup k2 := by
  induction m with
  | nil => simp [check_timeouts] at hf
  | cons p rest ih =>
    obtain ⟨k1, v⟩ := p
    obtain ⟨hk1, hnd⟩ := List.nodup_cons.mp hm
    by_cases h : v.time < now
    · simp only [check_timeouts, if_pos h, Option.some.injEq] at hf
      obtain ⟨hk, hv⟩ := Prod.mk.injEq .. ▸ hf.symm
      subst hk
      subst hv
      refine ⟨h, by simp [List.lookup], by simp [check_timeouts, if_pos h], ?_, ?_⟩
      · simp only [check_timeouts, if_pos h]
        exact (lookup_eq_none_iff rest k).mpr hk1
      · intro k2 hk2
        have hb : (k2 == k) = false := beq_eq_false_iff_ne.2 hk2
        simp [check_timeouts, if_pos h, List.lookup, hb]
    · simp only [check_timeouts, if_neg h] at hf
      obtain ⟨ht, hlk, hlen, hnone, hoth⟩ := ih hnd hf
      have hkmem : k ∈ rest.map Prod.fst :=
        List.mem_map.mpr ⟨(k, e), (check_timeouts_mem rest now k e hf).1, rfl⟩
      have hk : k ≠ k1 := fun hkk => hk1 (hkk ▸ hkmem)
      have hb : (k == k1) = false := beq_eq_false_iff_ne.2 hk
      refine ⟨ht, by simp only [List.lookup, hb]; exact hlk, ?_, ?_, ?_⟩
      · simp only [check_timeouts, if_neg h, List.length_cons]
        omega
      · simp only [check_timeouts, if_neg h, List.lookup, hb]
        exact hnone
      · intro k2 hk2
        by_cases h2 : k2 = k1
        · subst h2
          simp [check_timeouts, if_neg h, List.lookup]
        · have hb2 : (k2 == k1) = false := beq_eq_false_iff_ne.2 h2
          simp only [check_timeouts, if_neg h, List.lookup, hb2]
          exact hoth k2 hk2

theorem unregister_removes_key (m : TimeoutHandlerMap) (c : Nat)
    (hm : uniqueKeys m) :
    c ∉ (unregister_timeout_handler m c).map Prod.fst := by
  induction m with
  | nil => simp [unregister_timeout_handler]
  | cons p rest ih =>
    obtain ⟨k1, v⟩ := p
    obtain ⟨hk1, hnd⟩ := List.nodup_cons.mp hm
    by_cases h : k1 = c
    · subst h
      simp only [unregister_timeout_handler, if_pos rfl]
      exact hk1
    · simp only [unregister_timeout_handler, if_neg h, List.map_cons,
        List.mem_cons]
      rintro (hc | hc)
      · exact h hc.symm
      · exact ih hnd hc

/-- C8. Properties of the timeout poll `check_timeouts` on a registry
with unique owner keys: when nothing has expired the registry is
untouched; when an entry fires it had a passed deadline, exactly that
one entry is removed (size shrinks by one, its key is gone, all other
entries keep their deadlines and callbacks) and its callback is handed
back for invocation after the lock is released, so at most one expired
entry fires per call however many have passed deadlines; a fired key
can never fire again from the resulting registry; and a key cancelled
by `unregister_timeout_handler` can never fire from the resulting
registry. -/
theorem C8_poll_fires_at_most_once (m : TimeoutHandlerMap) (now : Nat)
    (hm : uniqueKeys m) :
    ((check_timeouts m now).1 = none → (check_timeouts m now).2 = m) ∧
    (∀ k e, (check_timeouts m now).1 = some (k, e) →
      e.time < now ∧ m.lookup k = some e ∧
      (check_timeouts m now).2.length + 1 = m.length ∧
      (check_timeouts m now).2.lookup k = none ∧
      (∀ k2, k2 ≠ k → (check_timeouts m now).2.lookup k2 = m.lookup k2) ∧
      (∀ now2 e2, (check_timeouts (check_timeouts m now).2 now2).1 ≠ some (k, e2))) ∧
    (∀ c now2 e2,
      (check_timeouts (unregister_timeout_handler m c) now2).1 ≠ some (c, e2)) := by
  refine ⟨check_timeouts_none m now, ?_, ?_⟩
  · intro k e hf
    obtain ⟨ht, hlk, hlen, hnone, hoth⟩ := check_timeouts_some m now k e hm hf
    refine ⟨ht, hlk, hlen, hnone, hoth, ?_⟩
    intro now2 e2 hf2
    have hkmem : k ∈ (check_timeouts m now).2.map Prod.fst :=
      List.mem_map.mpr
        ⟨(k, e2), (check_timeouts_mem _ now2 k e2 hf2).1, rfl⟩
    exact (lookup_eq_none_iff _ k).mp hnone hkmem
  · intro c now2 e2 hf2
    have hcmem : c ∈ (unregister_timeout_handler m c).map Prod.fst :=
      List.mem_map.mpr
        ⟨(c, e2), (check_timeouts_mem _ now2 c e2 hf2).1, rfl⟩
    exact unregister_removes_key m c hm hcmem

/-- C8 witness: the poll theorem applied at time 300 to a registry in
which both entries (deadlines 100 and 150) have expired. -/
theorem C8_poll_fires_at_most_once_witness :
    uniqueKeys [(1, ⟨100, 5⟩), (2, ⟨150, 6⟩)] ∧
    (((check_timeouts [(1, ⟨100, 5⟩), (2, ⟨150, 6⟩)] 300).1 = none →
        (check_timeouts [(1, ⟨100, 5⟩), (2, ⟨150, 6⟩)] 300).2 =
          [(1, ⟨100, 5⟩), (2, ⟨150, 6⟩)]) ∧
      (∀ k e, (check_timeouts [(1, ⟨100, 5⟩), (2, ⟨150, 6⟩)] 300).1 = some (k, e) →
        e.time < 300 ∧
        ([(1, ⟨100, 5⟩), (2, ⟨150, 6⟩)] : TimeoutHandlerMap).lookup k = some e ∧
        (check_timeouts [(1, ⟨100, 5⟩), (2, ⟨150, 6⟩)] 300).2.length + 1 =
          ([(1, ⟨100, 5⟩), (2, ⟨150, 6⟩)] : TimeoutHandlerMap).length ∧
        (check_timeouts [(1, ⟨100, 5⟩), (2, ⟨150, 6⟩)] 300).2.lookup k = none ∧
        (∀ k2, k2 ≠ k →
          (check_timeouts [(1, ⟨100, 5⟩), (2, ⟨150, 6⟩)] 300).2.lookup k2 =
            ([(1, ⟨100, 5⟩), (2, ⟨150, 6⟩)] : TimeoutHandlerMap).lookup k2) ∧
        (∀ now2 e2,
          (check_timeouts (check_timeouts [(1, ⟨100, 5⟩), (2, ⟨150, 6⟩)] 300).2 now2).1 ≠
            some (k, e2))) ∧
      (∀ c now2 e2,
        (check_timeouts
            (unregister_timeout_handler [(1, ⟨100, 5⟩), (2, ⟨150, 6⟩)] c) now2).1 ≠
          some (c, e2))) :=
  ⟨by decide,
   C8_poll_fires_at_most_once [(1, ⟨100, 5⟩), (2, ⟨150, 6⟩)] 300 (by decide)⟩

theorem autopilot_version_frozen (d : Device) (hu : d.target_uuid ≠ 0)
    (uid caps : Nat) :
    (process_autopilot_version d uid caps).1 = d := by
  simp only [process_autopilot_version, if_neg hu]
  by_cases h : d.target_uuid = uid
  · rw [if_neg (fun hh => hh h)]
  · rw [if_pos h]

theorem run_reports_frozen (d : Device) (hu : d.target_uuid ≠ 0)
    (us : List (Nat × Nat)) : (run_reports d us).1 = d := by
  induction us with
  | nil => rfl
  | cons r rs ih =>
    obtain ⟨u, c⟩ := r
    simp only [run_reports]
    rw [autopilot_version_frozen d hu u c]
    exact ih

theorem run_reports_uuid (us : List (Nat × Nat)) :
    ∀ d : Device, d.target_uuid = 0 →
    (run_reports d us).1.target_uuid =
      ((us.map Prod.fst).find? (fun u => u != 0)).getD 0 := by
  induction us with
  | nil =>
    intro d hu
    simpa [run_reports] using hu
  | cons r rs ih =>
    obtain ⟨u, c⟩ := r
    intro d hu
    by_cases h : u = 0
    · subst h
      simp only [run_reports, process_autopilot_version, hu, if_pos,
        List.map_cons, List.find?_cons]
      rw [ih _ (by simp)]
      simp
    · have hset : (process_autopilot_version d u c).1.target_uuid = u := by
        simp [process_autopilot_version, hu]
      simp only [run_reports]
      rw [run_reports_frozen _ (by rw [hset]; exact h) rs]
      rw [hset]
      have hb : (u != 0) = true := by simpa using h
      simp [List.find?_cons, hb]

/-- C5 counterexample. The claim says the stored unique id is set
exactly once, from the first capability report, and a later report
with a different id never mutates it. Feeding a fresh device the
report sequence [uid 0, uid 5]: the first report leaves `_target_uuid`
at the unset sentinel 0 (and even fires `notify_on_discover(0)`), so
the second report — carrying an id different from the first — takes
the set branch at device_impl.cpp:166 and mutates the stored id to 5
with no anomaly signal. -/
theorem C5_zero_uid_report_allows_mutation :
    (run_reports freshDevice [(0, 0), (5, 0)]).1.target_uuid = 5 ∧
    Event.anomaly ∉ (run_reports freshDevice [(0, 0), (5, 0)]).2 := by
  decide

/-- C5 amended. The stored unique id ends up being the id of the first
capability report carrying a NONZERO unique id (zero is the unset
sentinel, so zero-id reports leave it unset); once the stored id is
nonzero, a report carrying a different id never mutates the device and
emits exactly the anomaly signal (the `Debug() << "Error: UUID
changed"` log at device_impl.cpp:175). -/
theorem C5_uuid_set_once_from_first_nonzero_report (d : Device)
    (hu : d.target_uuid = 0) (us : List (Nat × Nat)) :
    (run_reports d us).1.target_uuid =
      ((us.map Prod.fst).find? (fun u => u != 0)).getD 0 ∧
    ∀ d2 : Device, ∀ uid caps : Nat, d2.target_uuid ≠ 0 →
      uid ≠ d2.target_uuid →
      (process_autopilot_version d2 uid caps).1 = d2 ∧
      (process_autopilot_version d2 uid caps).2 = [Event.anomaly] := by
  refine ⟨run_reports_uuid us d hu, ?_⟩
  intro d2 uid caps hu2 hne
  have h2 : d2.target_uuid ≠ uid := fun hh => hne hh.symm
  constructor
  · exact autopilot_version_frozen d2 hu2 uid caps
  · simp [process_autopilot_version, hu2, h2]

/-- C5 witness: the amended theorem applied to the report sequence
[uid 0, uid 7, uid 9], whose first nonzero uid is 7. -/
theorem C5_uuid_set_once_witness :
    freshDevice.target_uuid = 0 ∧
    ((run_reports freshDevice [(0, 1), (7, 4), (9, 0)]).1.target_uuid =
      ((([(0, 1), (7, 4), (9, 0)] : List (Nat × Nat)).map
          Prod.fst).find? (fun u => u != 0)).getD 0 ∧
    ∀ d2 : Device, ∀ uid caps : Nat, d2.target_uuid ≠ 0 →
      uid ≠ d2.target_uuid →
      (process_autopilot_version d2 uid caps).1 = d2 ∧
      (process_autopilot_version d2 uid caps).2 = [Event.anomaly]) :=
  ⟨by decide,
   C5_uuid_set_once_from_first_nonzero_report freshDevice (by decide)
     [(0, 1), (7, 4), (9, 0)]⟩

theorem heartbeat_ids_frozen (d : Device) (hs : d.target_system_id ≠ 0)
    (t s c : Nat) (ok : Bool) :
    (process_heartbeat d t s c ok).1.target_system_id = d.target_system_id ∧
    (process_heartbeat d t s c ok).1.target_component_id = d.target_component_id := by
  simp [process_heartbeat, hs]

theorem run_heartbeats_frozen (ms : List (Nat × Nat × Nat)) :
    ∀ d : Device, d.target_system_id ≠ 0 →
    (run_heartbeats d ms).target_system_id = d.target_system_id ∧
    (run_heartbeats d ms).target_component_id = d.target_component_id := by
  induction ms with
  | nil => intro d _; exact ⟨rfl, rfl⟩
  | cons m rest ih =>
    obtain ⟨t, s, c⟩ := m
    intro d hs
    obtain ⟨h1, h2⟩ := heartbeat_ids_frozen d hs t s c true
    obtain ⟨g1, g2⟩ := ih (process_heartbeat d t s c true).1 (h1 ▸ hs)
    exact ⟨by rw [run_heartbeats, g1, h1], by rw [run_heartbeats, g2, h2]⟩

theorem run_heartbeats_ids (ms : List (Nat × Nat × Nat)) :
    ∀ d : Device, d.target_system_id = 0 →
    ∀ t s c : Nat, ms.find? (fun m => m.2.1 != 0) = some (t, s, c) →
    (run_heartbeats d ms).target_system_id = s ∧
    (run_heartbeats d ms).target_component_id = c := by
  induction ms with
  | nil =>
    intro d _ t s c hf
    simp at hf
  | cons m rest ih =>
    obtain ⟨t0, s0, c0⟩ := m
    intro d hd t s c hf
    by_cases h : s0 = 0
    · subst h
      rw [List.find?_cons_of_neg _ (by simp)] at hf
      have hset : (process_heartbeat d t0 0 c0 true).1.target_system_id = 0 := by
        simp [process_heartbeat, hd]
      simp only [run_heartbeats]
      exact ih _ hset t s c hf
    · have hfind : List.find? (fun m : Nat × Nat × Nat => m.2.1 != 0)
          ((t0, s0, c0) :: rest) = some (t0, s0, c0) :=
        List.find?_cons_of_pos rest (by simpa using h)
      rw [hfind, Option.some.injEq, Prod.ext_iff, Prod.ext_iff] at hf
      obtain ⟨ht, hs2, hc2⟩ := hf
      have hset1 : (process_heartbeat d t0 s0 c0 true).1.target_system_id = s0 := by
        simp [process_heartbeat, hd]
      have hset2 : (process_heartbeat d t0 s0 c0 true).1.target_component_id = c0 := by
        simp [process_heartbeat, hd]
      simp only [run_heartbeats]
      obtain ⟨g1, g2⟩ :=
        run_heartbeats_frozen rest (process_heartbeat d t0 s0 c0 true).1
          (by rw [hset1]; exact h)
      have hs3 : s0 = s := by simpa using hs2
      have hc3 : c0 = c := by simpa using hc2
      exact ⟨by rw [g1, hset1, hs3], by rw [g2, hset2, hc3]⟩

/-- C9 counterexample. The claim says target system and component id
are set exactly once, from the first heartbeat, and no later heartbeat
changes them. Feeding a fresh device a heartbeat from sender (sysid 0,
compid 7) and then one from (sysid 3, compid 9): the first leaves
`_target_system_id` at the unset sentinel 0, so the guard at
device_impl.cpp:123 fires again on the second heartbeat and the stored
component id changes from 7 to 9. -/
theorem C9_zero_sysid_heartbeat_allows_change :
    (run_heartbeats freshDevice [(1, 0, 7), (2, 3, 9)]).target_system_id = 3 ∧
    (run_heartbeats freshDevice [(1, 0, 7), (2, 3, 9)]).target_component_id = 9 ∧
    (run_heartbeats freshDevice [(1, 0, 7), (2, 3, 9)]).target_component_id ≠ 7 := by
  decide

/-- C9 amended. The target system and component id are captured
together from the first heartbeat whose sender system id is nonzero
(zero being the unset sentinel; a zero-sysid heartbeat can transiently
re-set the component id), and no heartbeat after that one ever changes
either field. -/
theorem C9_ids_from_first_nonzero_heartbeat (d : Device)
    (hd : d.target_system_id = 0) (ms : List (Nat × Nat × Nat))
    (t s c : Nat) (hf : ms.find? (fun m => m.2.1 != 0) = some (t, s, c)) :
    (run_heartbeats d ms).target_system_id = s ∧
    (run_heartbeats d ms).target_component_id = c ∧
    ∀ ms2 : List (Nat × Nat × Nat),
      (run_heartbeats (run_heartbeats d ms) ms2).target_system_id = s ∧
      (run_heartbeats (run_heartbeats d ms) ms2).target_component_id = c := by
  obtain ⟨h1, h2⟩ := run_heartbeats_ids ms d hd t s c hf
  have hs : s ≠ 0 := by
    have := List.find?_some hf
    simpa using this
  refine ⟨h1, h2, fun ms2 => ?_⟩
  obtain ⟨g1, g2⟩ := run_heartbeats_frozen ms2 (run_heartbeats d ms)
    (by rw [h1]; exact hs)
  exact ⟨by rw [g1, h1], by rw [g2, h2]⟩

/-- C9 witness: the amended theorem applied to the heartbeat sequence
[(sysid 0, compid 7), (sysid 3, compid 9)], whose first nonzero-sysid
sender is (3, 9). -/
theorem C9_ids_from_first_nonzero_heartbeat_witness :
    freshDevice.target_system_id = 0 ∧
    ([(1, 0, 7), (2, 3, 9)] : List (Nat × Nat × Nat)).find?
      (fun m => m.2.1 != 0) = some (2, 3, 9) ∧
    ((run_heartbeats freshDevice [(1, 0, 7), (2, 3, 9)]).target_system_id = 3 ∧
     (run_heartbeats freshDevice [(1, 0, 7), (2, 3, 9)]).target_component_id = 9 ∧
     ∀ ms2 : List (Nat × Nat × Nat),
       (run_heartbeats (run_heartbeats freshDevice [(1, 0, 7), (2, 3, 9)])
          ms2).target_system_id = 3 ∧
       (run_heartbeats (run_heartbeats freshDevice [(1, 0, 7), (2, 3, 9)])
          ms2).target_component_id = 9) :=
  ⟨by decide, by decide,
   C9_ids_from_first_nonzero_heartbeat freshDevice (by decide)
     [(1, 0, 7), (2, 3, 9)] 2 3 9 (by decide)⟩

theorem check_hbto_flagged (d : Device) (hfl : d.heartbeat_timed_out = true)
    (t : Nat) : check_heartbeat_timeout d t = (d, []) := by
  by_cases h : t - d.last_heartbeat_received_time > d.heartbeat_timeout_s <;>
    simp [check_heartbeat_timeout, h, hfl]

theorem run_checks_flagged (d : Device) (hfl : d.heartbeat_timed_out = true)
    (ts : List Nat) : run_checks d ts = (d, []) := by
  induction ts with
  | nil => rfl
  | cons t ts ih =>
    simp only [run_checks, check_hbto_flagged d hfl t]
    rw [ih]
    simp

theorem run_checks_late (d : Device) (hfl : d.heartbeat_timed_out = false)
    (ts : List Nat) (hne : ts ≠ [])
    (hlate : ∀ t ∈ ts, t - d.last_heartbeat_received_time > d.heartbeat_timeout_s) :
    run_checks d ts = ({ d with heartbeat_timed_out := true },
                       [Event.timeoutNotify d.target_uuid]) := by
  cases ts with
  | nil => cases hne rfl
  | cons t ts =>
    have hl := hlate t (List.mem_cons_self ..)
    simp only [run_checks, check_heartbeat_timeout, if_pos hl, hfl,
      Bool.not_false, if_pos]
    rw [run_checks_flagged { d with heartbeat_timed_out := true } rfl ts]
    simp

theorem process_heartbeat_fields (d : Device) (t s c : Nat) (ok : Bool) :
    (process_heartbeat d t s c ok).1.heartbeat_timed_out = false ∧
    (process_heartbeat d t s c ok).1.last_heartbeat_received_time = t ∧
    (process_heartbeat d t s c ok).1.heartbeat_timeout_s = d.heartbeat_timeout_s := by
  by_cases h : d.target_system_id = 0 <;> simp [process_heartbeat, h]

/-- C6. One liveness-loss notification per contiguous heartbeat gap:
from an un-latched device, any nonempty sequence of periodic checks
all falling after the gap exceeds the configured heartbeat timeout
produces exactly one `notify_on_timeout`, however many checks run; a
heartbeat then clears the latch, and a second all-late nonempty check
sequence after that heartbeat again produces exactly one
notification. -/
theorem C6_loss_notified_once_per_gap (d : Device) (t1 s c : Nat) (ok : Bool)
    (ts ts2 : List Nat)
    (h1 : d.heartbeat_timed_out = false) (hts : ts ≠ [])
    (hlate : ∀ t ∈ ts, t - d.last_heartbeat_received_time > d.heartbeat_timeout_s)
    (hts2 : ts2 ≠ [])
    (hlate2 : ∀ t ∈ ts2, t - t1 > d.heartbeat_timeout_s) :
    countNotify (run_checks d ts).2 = 1 ∧
    (process_heartbeat (run_checks d ts).1 t1 s c ok).1.heartbeat_timed_out = false ∧
    countNotify
      (run_checks (process_heartbeat (run_checks d ts).1 t1 s c ok).1 ts2).2 = 1 := by
  have h1eq := run_checks_late d h1 ts hts hlate
  have hA : (run_checks d ts).1 = { d with heartbeat_timed_out := true } := by
    rw [h1eq]
  have hfields := process_heartbeat_fields (run_checks d ts).1 t1 s c ok
  refine ⟨?_, hfields.1, ?_⟩
  · rw [h1eq]
    simp [countNotify, isTimeoutNotify]
  · have hlateB : ∀ t ∈ ts2,
        t - (process_heartbeat (run_checks d ts).1 t1 s c
              ok).1.last_heartbeat_received_time >
          (process_heartbeat (run_checks d ts).1 t1 s c ok).1.heartbeat_timeout_s := by
      intro t htm
      rw [hfields.2.1, hfields.2.2, hA]
      simpa using hlate2 t htm
    rw [run_checks_late _ hfields.1 ts2 hts2 hlateB]
    simp [countNotify, isTimeoutNotify]

/-- C6 witness: heartbeat timeout 3, last heartbeat at 0, checks at
10 and 20 (one notification), heartbeat at 30, check at 100 (one
more). -/
theorem C6_loss_notified_once_per_gap_witness :
    knownDevice.heartbeat_timed_out = false ∧
    ([10, 20] : List Nat) ≠ [] ∧
    (∀ t ∈ ([10, 20] : List Nat),
      t - knownDevice.last_heartbeat_received_time >
        knownDevice.heartbeat_timeout_s) ∧
    ([100] : List Nat) ≠ [] ∧
    (∀ t ∈ ([100] : List Nat), t - 30 > knownDevice.heartbeat_timeout_s) ∧
    (countNotify (run_checks knownDevice [10, 20]).2 = 1 ∧
     (process_heartbeat (run_checks knownDevice [10, 20]).1 30 1 1
        true).1.heartbeat_timed_out = false ∧
     countNotify
       (run_checks (process_heartbeat (run_checks knownDevice [10, 20]).1 30 1 1
          true).1 [100]).2 = 1) :=
  ⟨by decide, by decide, by decide, by decide, by decide,
   C6_loss_notified_once_per_gap knownDevice 30 1 1 true [10, 20] [100]
     (by decide) (by decide) (by decide) (by decide) (by decide)⟩

/-- C7. `send_command` returns NO_DEVICE and sends nothing while the
endpoint identity is still unknown (both target ids at the unset
sentinel 0); otherwise it sends exactly one outbound command message
and returns CONNECTION_ERROR precisely when the send capability
reports failure and SUCCESS otherwise; in every case the device state
(command state, result, pending callback and all other fields) is
untouched. -/
theorem C7_send_command_fire_and_forget (d : Device) (sendOk : Bool)
    (cmd : Nat) :
    ((d.target_system_id = 0 ∧ d.target_component_id = 0) →
      send_command d sendOk cmd = (CommandResult.NO_DEVICE, d, [])) ∧
    (¬(d.target_system_id = 0 ∧ d.target_component_id = 0) →
      (send_command d sendOk cmd).2.2 = [Event.sent cmd] ∧
      ((send_command d sendOk cmd).1 = CommandResult.CONNECTION_ERROR ↔
        sendOk = false) ∧
      ((send_command d sendOk cmd).1 = CommandResult.SUCCESS ↔ sendOk = true)) ∧
    (send_command d sendOk cmd).2.1 = d := by
  refine ⟨fun h => by simp [send_command, h], fun h => ?_, ?_⟩
  · cases sendOk <;> simp [send_command, h]
  · by_cases h : d.target_system_id = 0 ∧ d.target_component_id = 0 <;>
      cases sendOk <;> simp [send_command, h]

/-- C7 witness: the theorem applied to the known-identity device with
a failing send, and the conclusion's busy-identity branch checked on a
fresh device. -/
theorem C7_send_command_fire_and_forget_witness :
    (((knownDevice.target_system_id = 0 ∧ knownDevice.target_component_id = 0) →
        send_command knownDevice false 5 =
          (CommandResult.NO_DEVICE, knownDevice, [])) ∧
      (¬(knownDevice.target_system_id = 0 ∧
          knownDevice.target_component_id = 0) →
        (send_command knownDevice false 5).2.2 = [Event.sent 5] ∧
        ((send_command knownDevice false 5).1 = CommandResult.CONNECTION_ERROR ↔
          false = false) ∧
        ((send_command knownDevice false 5).1 = CommandResult.SUCCESS ↔
          false = true)) ∧
      (send_command knownDevice false 5).2.1 = knownDevice) ∧
    send_command freshDevice true 5 = (CommandResult.NO_DEVICE, freshDevice, []) :=
  ⟨C7_send_command_fire_and_forget knownDevice false 5, by decide⟩

/-- C10. Every `send_command_with_ack` call that passes the busy check
clears the pending async completion callback (the assignment at
device_impl.cpp:314) before sending, so whatever happens afterwards —
send failure, timeout, or an acknowledgement consumed by the blocking
wait — no command-result callback is ever invoked during the call, and
the pending callback is still clear when it returns. -/
theorem C10_blocking_call_never_fires_stale_callback (d : Device)
    (sendOk : Bool) (ack : Option Nat) (cmd : Nat)
    (h : d.command_state ≠ CommandState.WAITING) :
    (send_command_with_ack d sendOk ack cmd).2.1.command_result_callback = none ∧
    (send_command_with_ack d sendOk ack cmd).2.2.filter isCallbackInvoked = [] := by
  by_cases hid : d.target_system_id = 0 ∧ d.target_component_id = 0 <;>
    cases sendOk <;> rcases ack with _ | r <;>
      simp [send_command_with_ack, send_command, process_command_ack,
        report_result, isCallbackInvoked, h, hid] <;>
      by_cases hr : r = MAV_RESULT_ACCEPTED <;>
        simp [hr]

/-- C10 witness: a device with a stale pending async callback (token
9) runs a blocking command that is acknowledged with result 0; the
callback is not invoked and the pending slot is clear afterwards. -/
theorem C10_blocking_call_never_fires_stale_callback_witness :
    ({ knownDevice with command_result_callback := some 9 }.command_state ≠
        CommandState.WAITING) ∧
    ((send_command_with_ack { knownDevice with command_result_callback := some 9 }
        true (some 0) 5).2.1.command_result_callback = none ∧
      (send_command_with_ack { knownDevice with command_result_callback := some 9 }
        true (some 0) 5).2.2.filter isCallbackInvoked = []) :=
  ⟨by decide,
   C10_blocking_call_never_fires_stale_callback
     { knownDevice with command_result_callback := some 9 } true (some 0) 5
     (by decide)⟩

end DroneLink
